import Mathlib

/-
Formal model of the 3d-heat-map repository (salama135/3d-heat-map).

The repository renders animated heat-map grids.  Its algorithmic core is a
procedural pattern engine (five patterns: waves, ripples, gradient,
checkerboard, spiral), a color mapper (six themes) and per-renderer frame
generators.  The same formulas appear, duplicated, in

  * src/components/heat-map.tsx          (HeatMap component; namespace HeatMap)
  * src/components/heat-map-hybrid.tsx   (two concatenated components; the
    PatternGenerator / clamped getColor part is namespace HeatMapHybrid, the
    Grid part reuses the HeatMap formulas verbatim)
  * src/components/heat-map-shader.tsx   (getPatternValue in the GLSL fragment
    shader and an InstancedCubes CPU copy; namespace HeatMapShader)

Numbers in the source are JavaScript doubles; the model uses real numbers, so
all statements are about the exact real-arithmetic semantics of the formulas.
The JavaScript % operator (numeric remainder) truncates toward zero and keeps
the sign of the dividend; it is modelled by jsMod below.  GLSL mod(x, y) is
x - y * floor(x / y); it is modelled by glslMod.  JavaScript Math.atan2 (and
GLSL atan(y, x)) is modelled through the complex argument, range (-pi, pi].
-/

/-- The five pattern kinds, a closed enumeration of the string-literal union
`"waves" | "ripples" | "gradient" | "checkerboard" | "spiral"`. -/
inductive PatternType where
  | waves
  | ripples
  | gradient
  | checkerboard
  | spiral
deriving DecidableEq

/-- The six color themes, a closed enumeration of the string-literal union
`"github" | "heat" | "ocean" | "rainbow" | "monochrome" | "purple"`. -/
inductive ColorTheme where
  | github
  | heat
  | ocean
  | rainbow
  | monochrome
  | purple
deriving DecidableEq

/-- A color as returned by the getColor functions: either a hex literal
string, or an hsl(h, s, l) triple.  The source renders the hsl case as the
template string with the three numeric components; here the components are
kept as exact rationals. -/
inductive ColorValue where
  | hex : String → ColorValue
  | hsl : ℚ → ℚ → ℚ → ColorValue
deriving DecidableEq

/-- One cell record `{ col, row, count }` as pushed by generatePattern in
heat-map.tsx and by the Grid component of heat-map-hybrid.tsx. -/
structure Cell where
  col : ℕ
  row : ℕ
  count : ℤ

/-- Truncation toward zero, as used by the JavaScript remainder operator:
floor for nonnegative arguments, ceiling for negative ones. -/
noncomputable def jsTrunc (x : ℝ) : ℤ :=
  if 0 ≤ x then ⌊x⌋ else ⌈x⌉

/-- The JavaScript remainder operator `a % n` on numbers: the remainder of
truncating division, so the result carries the sign of the dividend `a`.
For example `(-2.215) % (2 * pi)` is negative. -/
noncomputable def jsMod (a n : ℝ) : ℝ :=
  a - n * jsTrunc (a / n)

/-- GLSL `mod(a, n) = a - n * floor(a / n)`, which is nonnegative for
positive `n` (unlike jsMod). -/
noncomputable def glslMod (a n : ℝ) : ℝ :=
  a - n * ⌊a / n⌋

/-- Model of `Math.atan2(y, x)` (and GLSL `atan(y, x)`): the argument of
the complex number `x + y i`, with range (-pi, pi]. -/
noncomputable def atan2 (y x : ℝ) : ℝ :=
  Complex.arg ⟨x, y⟩

namespace HeatMap

/-- getColor from src/components/heat-map.tsx (GitHub-style greens only; the
component has no theme selector).  No clamping is applied to `count`. -/
def getColor (count : ℤ) : String :=
  if count = 0 then "#ebedf0"
  else if count ≤ 2 then "#9be9a8"
  else if count ≤ 5 then "#40c463"
  else if count ≤ 8 then "#30a14e"
  else "#216e39"

/-- getIntensityLabel from src/components/heat-map.tsx (an identical copy
sits in the Grid part of heat-map-hybrid.tsx).  No clamping is applied. -/
def getIntensityLabel (count : ℤ) : String :=
  if count = 0 then "No activity"
  else if count ≤ 2 then "Low activity"
  else if count ≤ 5 then "Medium activity"
  else if count ≤ 8 then "High activity"
  else "Very high activity"

/-- The switch body of generatePattern in src/components/heat-map.tsx
(lines 38-102): the count of the cell at (col, row) for a grid of
`columns × rows` cells, pattern `p` and time `t`.  The identical switch is
in Grid.generatePattern of heat-map-hybrid.tsx and (modulo the instancing
code around it) in InstancedCubes.generatePattern of heat-map-shader.tsx.
The component fixes columns = 52, rows = 20; the function itself only reads
them through centerX/centerY and the gradient modulus, so they are
parameters here.  The checkerboard parity test `x % 2 === 0` acts on the
integer `col + row + Math.floor(time / 5)` and is JavaScript truncating
remainder, i.e. `Int.tmod`. -/
noncomputable def countAt (columns rows col row : ℕ) (p : PatternType) (t : ℝ) : ℤ :=
  match p with
  | .waves =>
      ⌊((Real.sin ((col : ℝ) * 0.2 + t * 0.1) + Real.sin ((row : ℝ) * 0.2 + t * 0.1) + 2) / 4)
        * 10⌋
  | .ripples =>
      let centerX : ℝ := (columns : ℝ) / 2
      let centerY : ℝ := (rows : ℝ) / 2
      let dx : ℝ := (col : ℝ) - centerX
      let dy : ℝ := (row : ℝ) - centerY
      let distance : ℝ := Real.sqrt (dx * dx + dy * dy)
      ⌊((Real.sin (distance * 0.5 - t * 0.2) + 1) / 2) * 10⌋
  | .gradient =>
      ⌊(jsMod ((col : ℝ) + (row : ℝ) + t) (columns : ℝ) / (columns : ℝ)) * 10⌋
  | .checkerboard =>
      if ((col : ℤ) + (row : ℤ) + ⌊t / 5⌋).tmod 2 = 0 then 10 else 0
  | .spiral =>
      let centerX : ℝ := (columns : ℝ) / 2
      let centerY : ℝ := (rows : ℝ) / 2
      let dx : ℝ := (col : ℝ) - centerX
      let dy : ℝ := (row : ℝ) - centerY
      let dist : ℝ := Real.sqrt (dx * dx + dy * dy)
      let angle : ℝ := atan2 dy dx
      ⌊(jsMod (angle + dist * 0.1 + t * 0.05) (2 * Real.pi) / (2 * Real.pi)) * 10⌋

/-- generatePattern from src/components/heat-map.tsx: the nested loops
`for col in [0, columns) { for row in [0, rows) { newData.push({col, row,
count}) } }`, building a fresh array of cell records (column-major order). -/
noncomputable def generatePattern (columns rows : ℕ) (p : PatternType) (t : ℝ) : List Cell :=
  (List.range columns).flatMap fun col =>
    (List.range rows).map fun row =>
      ⟨col, row, countAt columns rows col row p t⟩

/-- generatePattern viewed with possibly nonpositive (JavaScript integer)
grid dimensions: a loop `for (col = 0; col < columns; col++)` executes
`max columns 0` times, so nonpositive dimensions yield zero iterations. -/
noncomputable def generatePatternLoop (columns rows : ℤ) (p : PatternType) (t : ℝ) : List Cell :=
  generatePattern columns.toNat rows.toNat p t

end HeatMap

namespace HeatMapHybrid

/-- getColor from src/components/heat-map-hybrid.tsx (lines 19-69), the only
variant that defensively clamps: `safeCount = Math.max(0, Math.min(10,
Math.floor(count)))`.  The model takes integer counts (every call site
passes an integer), on which Math.floor is the identity. -/
def getColor (count : ℤ) (theme : ColorTheme) : ColorValue :=
  let safeCount : ℤ := max 0 (min 10 count)
  match theme with
  | .github =>
      if safeCount = 0 then .hex "#ebedf0"
      else if safeCount ≤ 2 then .hex "#9be9a8"
      else if safeCount ≤ 5 then .hex "#40c463"
      else if safeCount ≤ 8 then .hex "#30a14e"
      else .hex "#216e39"
  | .heat =>
      if safeCount = 0 then .hex "#f8f9fa"
      else if safeCount ≤ 2 then .hex "#ffccbc"
      else if safeCount ≤ 5 then .hex "#ff8a65"
      else if safeCount ≤ 8 then .hex "#e64a19"
      else .hex "#bf360c"
  | .ocean =>
      if safeCount = 0 then .hex "#f5f5f5"
      else if safeCount ≤ 2 then .hex "#bbdefb"
      else if safeCount ≤ 5 then .hex "#64b5f6"
      else if safeCount ≤ 8 then .hex "#1976d2"
      else .hex "#0d47a1"
  | .rainbow => .hsl ((safeCount : ℚ) / 10 * 300) 80 60
  | .monochrome => .hsl 0 0 (90 - (safeCount : ℚ) * 8)
  | .purple =>
      if safeCount = 0 then .hex "#f3e5f5"
      else if safeCount ≤ 2 then .hex "#ce93d8"
      else if safeCount ≤ 5 then .hex "#9c27b0"
      else if safeCount ≤ 8 then .hex "#6a1b9a"
      else .hex "#4a148c"

/-- The switch body of PatternGenerator.generatePattern in
src/components/heat-map-hybrid.tsx (lines 97-159): the float intensity
`value` stored at cell (col, row).  Formulas are identical to
HeatMap.countAt except that no `* 10` scaling and no floor are applied
(checkerboard stores 1 or 0 directly). -/
noncomputable def valueAt (columns rows col row : ℕ) (p : PatternType) (t : ℝ) : ℝ :=
  match p with
  | .waves =>
      (Real.sin ((col : ℝ) * 0.2 + t * 0.1) + Real.sin ((row : ℝ) * 0.2 + t * 0.1) + 2) / 4
  | .ripples =>
      let centerX : ℝ := (columns : ℝ) / 2
      let centerY : ℝ := (rows : ℝ) / 2
      let dx : ℝ := (col : ℝ) - centerX
      let dy : ℝ := (row : ℝ) - centerY
      let distance : ℝ := Real.sqrt (dx * dx + dy * dy)
      (Real.sin (distance * 0.5 - t * 0.2) + 1) / 2
  | .gradient =>
      jsMod ((col : ℝ) + (row : ℝ) + t) (columns : ℝ) / (columns : ℝ)
  | .checkerboard =>
      if ((col : ℤ) + (row : ℤ) + ⌊t / 5⌋).tmod 2 = 0 then 1 else 0
  | .spiral =>
      let centerX : ℝ := (columns : ℝ) / 2
      let centerY : ℝ := (rows : ℝ) / 2
      let dx : ℝ := (col : ℝ) - centerX
      let dy : ℝ := (row : ℝ) - centerY
      let dist : ℝ := Real.sqrt (dx * dx + dy * dy)
      let angle : ℝ := atan2 dy dx
      jsMod (angle + dist * 0.1 + t * 0.05) (2 * Real.pi) / (2 * Real.pi)

/-- In-place write loop over a fixed-length buffer: position `i` (counting
from `start`) receives `f i` when `i < n`, out-of-range writes are dropped
(as Float32Array drops them).  This is the state-passing rendering of
`for (i = 0; i < n; i++) data[i] = f(i)`. -/
def writeLoop (f : ℕ → ℝ) (n : ℕ) : ℕ → List ℝ → List ℝ
  | _, [] => []
  | start, x :: xs => (if start < n then f start else x) :: writeLoop f n (start + 1) xs

/-- PatternGenerator.generatePattern from src/components/heat-map-hybrid.tsx
(lines 97-159).  The component allocates dataRef = new Float32Array(columns
* rows) ONCE and every invocation overwrites that same buffer in place
(`data[i] = value`), then hands the very same buffer to onUpdate; here the
buffer is passed and returned explicitly.  Cell decode is row-major:
col = i % columns, row = floor(i / columns). -/
noncomputable def generatePattern (columns rows : ℕ) (p : PatternType) (t : ℝ)
    (data : List ℝ) : List ℝ :=
  writeLoop (fun i => valueAt columns rows (i % columns) (i / columns) p t)
    (columns * rows) 0 data

/-- The (col, row) traversal order of the index-decoded loops in
heat-map-hybrid.tsx (PatternGenerator, lines 102-104) and in
InstancedCubes.generatePattern of heat-map-shader.tsx (lines 265-267):
index i maps to col = i % columns, row = floor(i / columns). -/
def cellIndexCoords (columns rows : ℕ) : List (ℕ × ℕ) :=
  (List.range (columns * rows)).map fun i => (i % columns, i / columns)

end HeatMapHybrid

namespace HeatMapShader

/-- getColor from src/components/heat-map-shader.tsx (lines 16-63); an
identical unclamped copy sits in the Grid part of heat-map-hybrid.tsx
(lines 559-606).  Unlike HeatMapHybrid.getColor there is NO clamp: the raw
`count` is compared against the band bounds directly. -/
def getColor (count : ℤ) (theme : ColorTheme) : ColorValue :=
  match theme with
  | .github =>
      if count = 0 then .hex "#ebedf0"
      else if count ≤ 2 then .hex "#9be9a8"
      else if count ≤ 5 then .hex "#40c463"
      else if count ≤ 8 then .hex "#30a14e"
      else .hex "#216e39"
  | .heat =>
      if count = 0 then .hex "#f8f9fa"
      else if count ≤ 2 then .hex "#ffccbc"
      else if count ≤ 5 then .hex "#ff8a65"
      else if count ≤ 8 then .hex "#e64a19"
      else .hex "#bf360c"
  | .ocean =>
      if count = 0 then .hex "#f5f5f5"
      else if count ≤ 2 then .hex "#bbdefb"
      else if count ≤ 5 then .hex "#64b5f6"
      else if count ≤ 8 then .hex "#1976d2"
      else .hex "#0d47a1"
  | .rainbow => .hsl ((count : ℚ) / 10 * 300) 80 60
  | .monochrome => .hsl 0 0 (90 - (count : ℚ) * 8)
  | .purple =>
      if count = 0 then .hex "#f3e5f5"
      else if count ≤ 2 then .hex "#ce93d8"
      else if count ≤ 5 then .hex "#9c27b0"
      else if count ≤ 8 then .hex "#6a1b9a"
      else .hex "#4a148c"

/-- getPatternValue from the fragment shader of
src/components/heat-map-shader.tsx (lines 120-160), as a function of the
already-scaled position `scaledPos = vUv * resolution = (sx, sy)`.  The
shader runs with `time` multiplied by animationSpeed at the call site; `t`
here is that product.  GLSL mod (glslMod) is floor-based, GLSL atan(y, x)
is the two-argument arctangent, and the spiral reduces modulo the literal
6.28 rather than 2 pi.  Note the time coefficients: waves/ripples use `t`
raw, gradient uses `t * 5`, checkerboard `floor(t * 0.2)`, spiral `t * 0.5`. -/
noncomputable def getPatternValue (columns rows : ℕ) (sx sy : ℝ) (p : PatternType) (t : ℝ) : ℝ :=
  match p with
  | .waves =>
      (Real.sin (sx * 0.2 + t) + Real.sin (sy * 0.2 + t) + 2) / 4
  | .ripples =>
      let dx : ℝ := sx - (columns : ℝ) * 0.5
      let dy : ℝ := sy - (rows : ℝ) * 0.5
      let dist : ℝ := Real.sqrt (dx * dx + dy * dy)
      (Real.sin (dist * 0.5 - t) + 1) / 2
  | .gradient =>
      glslMod (sx + sy + t * 5) (columns : ℝ) / (columns : ℝ)
  | .checkerboard =>
      glslMod ((⌊sx⌋ : ℝ) + (⌊sy⌋ : ℝ) + (⌊t * 0.2⌋ : ℝ)) 2
  | .spiral =>
      let dx : ℝ := sx - (columns : ℝ) * 0.5
      let dy : ℝ := sy - (rows : ℝ) * 0.5
      let dist : ℝ := Real.sqrt (dx * dx + dy * dy)
      let angle : ℝ := atan2 dy dx
      glslMod (angle + dist * 0.1 + t * 0.5) 6.28 / 6.28

end HeatMapShader

/-! ### Arithmetic facts about the two remainder operators -/

/-- Rewriting jsMod as a scaled fractional-part-like quantity. -/
theorem jsMod_eq_mul (a n : ℝ) (hn : n ≠ 0) :
    jsMod a n = n * (a / n - jsTrunc (a / n)) := by
  unfold jsMod
  rw [mul_sub, mul_div_cancel₀ a hn]

/-- For a positive modulus, jsMod stays strictly below the modulus. -/
theorem jsMod_lt (a n : ℝ) (hn : 0 < n) : jsMod a n < n := by
  rw [jsMod_eq_mul a n hn.ne']
  unfold jsTrunc
  split
  · have h1 : a / n - ⌊a / n⌋ < 1 := by
      have := Int.fract_lt_one (a / n)
      unfold Int.fract at this
      linarith
    nlinarith
  · have h1 : a / n - ⌈a / n⌉ ≤ 0 := by
      have := Int.le_ceil (a / n)
      linarith
    nlinarith

/-- For a positive modulus, jsMod stays strictly above the negated modulus. -/
theorem neg_lt_jsMod (a n : ℝ) (hn : 0 < n) : -n < jsMod a n := by
  rw [jsMod_eq_mul a n hn.ne']
  unfold jsTrunc
  split
  · have h1 : 0 ≤ a / n - ⌊a / n⌋ := by
      have := Int.fract_nonneg (a / n)
      unfold Int.fract at this
      linarith
    nlinarith
  · have h1 : -1 < a / n - ⌈a / n⌉ := by
      have := Int.ceil_lt_add_one (a / n)
      linarith
    nlinarith

/-- For a nonnegative dividend and positive modulus, jsMod is nonnegative
(truncation agrees with floor there). -/
theorem jsMod_nonneg (a n : ℝ) (ha : 0 ≤ a) (hn : 0 < n) : 0 ≤ jsMod a n := by
  rw [jsMod_eq_mul a n hn.ne']
  have hq : 0 ≤ a / n := div_nonneg ha hn.le
  unfold jsTrunc
  rw [if_pos hq]
  have h1 : 0 ≤ a / n - ⌊a / n⌋ := by
    have := Int.fract_nonneg (a / n)
    unfold Int.fract at this
    linarith

  nlinarith

/-- On a nonnegative dividend the JavaScript remainder and the GLSL
floor-based mod agree. -/
theorem jsMod_eq_glslMod (a n : ℝ) (ha : 0 ≤ a) (hn : 0 < n) : jsMod a n = glslMod a n := by
  unfold jsMod glslMod jsTrunc
  rw [if_pos (div_nonneg ha hn.le)]

/-- GLSL mod of an integer by 2 is the (nonnegative) integer remainder. -/
theorem glslMod_intCast_two (m : ℤ) : glslMod (m : ℝ) 2 = ((m % 2 : ℤ) : ℝ) := by
  unfold glslMod
  have hfloor : ⌊(m : ℝ) / 2⌋ = m / 2 := by
    rw [Int.floor_eq_iff]
    constructor
    · rw [le_div_iff₀ (by norm_num : (0 : ℝ) < 2)]
      have h : m / 2 * 2 ≤ m := by omega
      exact_mod_cast h
    · rw [div_lt_iff₀ (by norm_num : (0 : ℝ) < 2)]
      have h : m < (m / 2 + 1) * 2 := by omega
      exact_mod_cast h
  rw [hfloor]
  have h : m % 2 = m - 2 * (m / 2) := by omega
  rw [h]
  push_cast
  ring

/-- JavaScript truncating remainder by 2 vanishes exactly when the
euclidean remainder by 2 does (both detect evenness). -/
theorem tmod_two_eq_zero_iff (m : ℤ) : m.tmod 2 = 0 ↔ m % 2 = 0 := by
  rw [Int.tmod_def]
  constructor
  · intro h
    have h2 : m = 2 * m.tdiv 2 := by linarith
    omega
  · intro h
    obtain ⟨k, hk⟩ : (2 : ℤ) ∣ m := by omega
    subst hk
    rw [Int.mul_tdiv_cancel_left _ (by norm_num)]
    ring

/-! ### Facts about the quantization count = floor(intensity * 10) -/

/-- Quantization bounds: an intensity in [-1, 1] quantizes into [-10, 10]. -/
theorem floor_ten_bounds {x : ℝ} (h0 : -1 ≤ x) (h1 : x ≤ 1) :
    -10 ≤ ⌊x * 10⌋ ∧ ⌊x * 10⌋ ≤ 10 := by
  constructor
  · apply Int.le_floor.mpr
    push_cast
    linarith
  · calc ⌊x * 10⌋ ≤ ⌊(10 : ℝ)⌋ := Int.floor_le_floor (by linarith)
    _ = 10 := by norm_num

/-- Quantization keeps nonnegativity. -/
theorem floor_ten_nonneg {x : ℝ} (h : 0 ≤ x) : 0 ≤ ⌊x * 10⌋ :=
  Int.floor_nonneg.mpr (by positivity)

/-! ### The in-place write loop fully overwrites an exactly-sized buffer -/

/-- Writing `f i` at every position of a buffer that lies entirely inside
the written range replaces the contents with the values of `f`, regardless
of what was stored before. -/
theorem writeLoop_eq_map (f : ℕ → ℝ) (n : ℕ) (start : ℕ) (buf : List ℝ)
    (h : start + buf.length ≤ n) :
    HeatMapHybrid.writeLoop f n start buf = (List.range buf.length).map fun k => f (start + k) := by
  induction buf generalizing start with
  | nil => simp [HeatMapHybrid.writeLoop]
  | cons x xs ih =>
      simp only [List.length_cons] at h
      rw [HeatMapHybrid.writeLoop, if_pos (by omega : start < n), ih (start + 1) (by omega),
        List.length_cons, List.range_succ_eq_map, List.map_cons, List.map_map]
      refine congrArg₂ _ (by rw [Nat.add_zero]) ?_
      exact List.map_congr_left fun k _ => congrArg f (by omega)

/-- PatternGenerator.generatePattern on its own (correctly sized) buffer:
every slot is overwritten with the freshly computed intensity, so the result
is the full list of new values, independent of the previous contents. -/
theorem hybridGenerate_eq_map (columns rows : ℕ) (p : PatternType) (t : ℝ)
    (data : List ℝ) (h : data.length = columns * rows) :
    HeatMapHybrid.generatePattern columns rows p t data =
      (List.range (columns * rows)).map fun i =>
        HeatMapHybrid.valueAt columns rows (i % columns) (i / columns) p t := by
  unfold HeatMapHybrid.generatePattern
  rw [writeLoop_eq_map _ _ 0 data (by omega), h]
  exact List.map_congr_left fun k _ => by rw [Nat.zero_add]

/-! ### Claim C3 — clamping in the color mappers -/

/-- Claim C3, counterexample: the getColor entry point of
heat-map-shader.tsx applies no clamp, so at count = -1 under the Github
theme it returns the 1..2 band color, while the clamped count 0 returns the
zero-band color.  The claimed identity colorFor(clamp(count)) =
colorFor(count) fails for this entry point. -/
theorem C3_counterexample :
    HeatMapShader.getColor (-1) ColorTheme.github ≠
      HeatMapShader.getColor (max 0 (min 10 (-1))) ColorTheme.github := by
  decide

/-- Claim C3, amended: the clamp identity does hold for the one entry point
that actually clamps, getColor of heat-map-hybrid.tsx (lines 19-69): for
every integer count and every theme, colorFor(clamp(count)) =
colorFor(count). -/
theorem C3_clamp_idempotent (count : ℤ) (theme : ColorTheme) :
    HeatMapHybrid.getColor (max 0 (min 10 count)) theme =
      HeatMapHybrid.getColor count theme := by
  have h : max 0 (min 10 (max 0 (min 10 count))) = max 0 (min 10 count) := by omega
  unfold HeatMapHybrid.getColor
  rw [h]

/-! ### Claim C6 — Github band boundary colors -/

/-- Claim C6: at theme Github the literal band-boundary colors are returned:
count 0 gives "#ebedf0", 2 gives "#9be9a8", 3 gives "#40c463", 8 gives
"#30a14e" and 9 gives "#216e39" — matching the bands 0, 1-2, 3-5, 6-8,
9-10.  Verified on both cited entry points: getColor of heat-map.tsx and
the (clamped, github case) getColor of heat-map-hybrid.tsx. -/
theorem C6_github_boundaries :
    HeatMap.getColor 0 = "#ebedf0" ∧
    HeatMap.getColor 2 = "#9be9a8" ∧
    HeatMap.getColor 3 = "#40c463" ∧
    HeatMap.getColor 8 = "#30a14e" ∧
    HeatMap.getColor 9 = "#216e39" ∧
    HeatMapHybrid.getColor 0 ColorTheme.github = ColorValue.hex "#ebedf0" ∧
    HeatMapHybrid.getColor 2 ColorTheme.github = ColorValue.hex "#9be9a8" ∧
    HeatMapHybrid.getColor 3 ColorTheme.github = ColorValue.hex "#40c463" ∧
    HeatMapHybrid.getColor 8 ColorTheme.github = ColorValue.hex "#30a14e" ∧
    HeatMapHybrid.getColor 9 ColorTheme.github = ColorValue.hex "#216e39" := by
  decide

/-! ### Claim C7 — the checkerboard pattern is exactly binary -/

/-- Claim C7: for every grid, cell and time (negative times included, where
the JavaScript remainder of the parity sum can be -1), the checkerboard
intensity is exactly 0 or exactly 1, and the corresponding count is exactly
0 or 10. -/
theorem C7_checkerboard_binary (columns rows col row : ℕ) (t : ℝ) :
    (HeatMapHybrid.valueAt columns rows col row PatternType.checkerboard t = 0 ∨
      HeatMapHybrid.valueAt columns rows col row PatternType.checkerboard t = 1) ∧
    (HeatMap.countAt columns rows col row PatternType.checkerboard t = 0 ∨
      HeatMap.countAt columns rows col row PatternType.checkerboard t = 10) := by
  constructor
  · simp only [HeatMapHybrid.valueAt]
    split
    · right; rfl
    · left; rfl
  · simp only [HeatMap.countAt]
    split
    · right; rfl
    · left; rfl

/-! ### Claim C10 — negative counts are labeled "Low activity" -/

/-- Claim C10: getIntensityLabel applies no clamp, so a negative count
fails the count = 0 test but passes count <= 2, landing in "Low activity"
rather than "No activity". -/
theorem C10_negative_label (count : ℤ) (h : count < 0) :
    HeatMap.getIntensityLabel count = "Low activity" ∧
      HeatMap.getIntensityLabel count ≠ "No activity" := by
  unfold HeatMap.getIntensityLabel
  rw [if_neg (by omega), if_pos (by omega)]
  exact ⟨rfl, by decide⟩

/-- Witness for C10 at the concrete count -1. -/
theorem C10_witness :
    HeatMap.getIntensityLabel (-1) = "Low activity" ∧
      HeatMap.getIntensityLabel (-1) ≠ "No activity" :=
  C10_negative_label (-1) (by decide)

/-! ### Claim C5 — nonpositive grid dimensions -/

/-- Claim C5: with columns <= 0 or rows <= 0 the generator loops execute
zero iterations, so the frame generator returns the empty frame — a defined
value, every cell of which (vacuously) has count 0 — without evaluating any
pattern formula; in particular the gradient division by columns never
happens. -/
theorem C5_zero_grid (columns rows : ℤ) (p : PatternType) (t : ℝ)
    (h : columns ≤ 0 ∨ rows ≤ 0) :
    HeatMap.generatePatternLoop columns rows p t = [] ∧
      ∀ cell ∈ HeatMap.generatePatternLoop columns rows p t, cell.count = 0 := by
  have hnil : HeatMap.generatePatternLoop columns rows p t = [] := by
    unfold HeatMap.generatePatternLoop HeatMap.generatePattern
    rcases h with h | h
    · rw [Int.toNat_of_nonpos h]
      simp
    · rw [Int.toNat_of_nonpos h]
      simp
  refine ⟨hnil, ?_⟩
  rw [hnil]
  simp

/-- Witness for C5 on the concrete zero-width grid 0 x 3. -/
theorem C5_witness :
    HeatMap.generatePatternLoop 0 3 PatternType.waves 0 = [] ∧
      ∀ cell ∈ HeatMap.generatePatternLoop 0 3 PatternType.waves 0, cell.count = 0 :=
  C5_zero_grid 0 3 PatternType.waves 0 (Or.inl (by decide))

/-! ### Claim C4 — frames are not produced fresh in the hybrid renderer -/

/-- Claim C4, counterexample: PatternGenerator of heat-map-hybrid.tsx hands
its one reused buffer to onUpdate each frame.  Running the checkerboard on
a 1 x 1 grid at time 0 stores [1] in the buffer; the next invocation at
time 5 overwrites that same storage with [0].  The contents a consumer
received from the first frame are therefore mutated by the second
invocation, contradicting the claim that no previously returned frame is
ever mutated in place. -/
theorem C4_counterexample :
    HeatMapHybrid.generatePattern 1 1 PatternType.checkerboard 5
        (HeatMapHybrid.generatePattern 1 1 PatternType.checkerboard 0 [0]) ≠
      HeatMapHybrid.generatePattern 1 1 PatternType.checkerboard 0 [0] := by
  have h0 : HeatMapHybrid.generatePattern 1 1 PatternType.checkerboard 0 [0] = [1] := by
    unfold HeatMapHybrid.generatePattern
    rw [HeatMapHybrid.writeLoop, HeatMapHybrid.writeLoop, if_pos (by omega : 0 < 1 * 1)]
    simp only [HeatMapHybrid.valueAt]
    norm_num
  have h5 : HeatMapHybrid.generatePattern 1 1 PatternType.checkerboard 5 [1] = [0] := by
    unfold HeatMapHybrid.generatePattern
    rw [HeatMapHybrid.writeLoop, HeatMapHybrid.writeLoop, if_pos (by omega : 0 < 1 * 1)]
    simp only [HeatMapHybrid.valueAt]
    norm_num
    decide
  rw [h0, h5]
  simp

/-- Claim C4, amended: generatePattern of heat-map.tsx builds a new array
on every call, but PatternGenerator of heat-map-hybrid.tsx instead
overwrites its single shared buffer completely: on a correctly sized buffer
the result is exactly the list of freshly computed intensities, independent
of (and destroying) the previous frame contents. -/
theorem C4_overwrites_in_place (columns rows : ℕ) (p : PatternType) (t : ℝ)
    (data : List ℝ) (h : data.length = columns * rows) :
    HeatMapHybrid.generatePattern columns rows p t data =
      (List.range (columns * rows)).map fun i =>
        HeatMapHybrid.valueAt columns rows (i % columns) (i / columns) p t :=
  hybridGenerate_eq_map columns rows p t data h

/-- Witness for the amended C4 on a concrete 1 x 1 buffer. -/
theorem C4_witness :
    HeatMapHybrid.generatePattern 1 1 PatternType.waves 0 [0] =
      (List.range (1 * 1)).map fun i =>
        HeatMapHybrid.valueAt 1 1 (i % 1) (i / 1) PatternType.waves 0 :=
  C4_overwrites_in_place 1 1 PatternType.waves 0 [0] rfl

/-! ### Claim C9 — determinism / no hidden state -/

/-- Claim C9: the engine is referentially transparent.  In this embedding
every generator is a pure function of its arguments, so two calls at equal
arguments are definitionally equal; the one piece of mutable state in the
source, the reused Float32Array of PatternGenerator, does not influence the
produced values: running the generator from any two buffers of the right
size yields identical contents. -/
theorem C9_deterministic (columns rows : ℕ) (p : PatternType) (t : ℝ)
    (data1 data2 : List ℝ)
    (h1 : data1.length = columns * rows) (h2 : data2.length = columns * rows) :
    HeatMap.generatePattern columns rows p t = HeatMap.generatePattern columns rows p t ∧
      HeatMapHybrid.generatePattern columns rows p t data1 =
        HeatMapHybrid.generatePattern columns rows p t data2 := by
  refine ⟨rfl, ?_⟩
  rw [hybridGenerate_eq_map columns rows p t data1 h1,
    hybridGenerate_eq_map columns rows p t data2 h2]

/-- Witness for C9 with two concrete different initial buffers. -/
theorem C9_witness :
    HeatMap.generatePattern 1 1 PatternType.waves 0 = HeatMap.generatePattern 1 1 PatternType.waves 0 ∧
      HeatMapHybrid.generatePattern 1 1 PatternType.waves 0 [0] =
        HeatMapHybrid.generatePattern 1 1 PatternType.waves 0 [37] :=
  C9_deterministic 1 1 PatternType.waves 0 [0] [37] rfl rfl

/-! ### Claim C1 — range of intensities and counts -/

/-- Bounds for the scaled remainder jsMod a n / n with positive modulus:
always strictly inside (-1, 1), in particular within [-1, 1]. -/
theorem jsMod_div_bounds (a n : ℝ) (hn : 0 < n) :
    -1 ≤ jsMod a n / n ∧ jsMod a n / n ≤ 1 := by
  constructor
  · rw [le_div_iff₀ hn]
    have := neg_lt_jsMod a n hn
    linarith
  · rw [div_le_one hn]
    exact (jsMod_lt a n hn).le

/-- Claim C1, counterexample: on the (positive) 1 x 1 grid, at cell (0, 0)
and time -1/2, the gradient pattern computes jsMod (0 + 0 - 1/2) 1 = -1/2
with the sign-preserving JavaScript remainder, so the intensity is -1/2 and
the quantized count is floor(-5) = -5: the count is negative, contradicting
the claimed invariant count in [0, 10]. -/
theorem C1_counterexample :
    HeatMap.countAt 1 1 0 0 PatternType.gradient (-(1 / 2)) = -5 ∧
      HeatMap.countAt 1 1 0 0 PatternType.gradient (-(1 / 2)) < 0 := by
  have key : HeatMap.countAt 1 1 0 0 PatternType.gradient (-(1 / 2)) = -5 := by
    simp only [HeatMap.countAt]
    have harg : ((0 : ℕ) : ℝ) + ((0 : ℕ) : ℝ) + (-(1 / 2)) = -(1 / 2) := by
      push_cast
      ring
    have htr : jsTrunc ((-(1 / 2) : ℝ) / ((1 : ℕ) : ℝ)) = 0 := by
      unfold jsTrunc
      rw [if_neg (by norm_num)]
      norm_num
    unfold jsMod
    rw [harg, htr]
    norm_num
  exact ⟨key, by omega⟩

/-- Claim C1, amended: what the code guarantees.  For any grid with
positive columns, any cell, any pattern and any time, the intensity lies in
[-1, 1] and the count in [-10, 10]; for the waves, ripples and checkerboard
patterns the claimed nonnegative bounds 0 <= intensity (hence intensity in
[0, 1]) and 0 <= count (hence count in [0, 10]) do hold.  The gradient and
spiral patterns can go negative (see the counterexample), which is exactly
the part of the claim that fails. -/
theorem C1_intensity_count_range (columns rows col row : ℕ) (p : PatternType) (t : ℝ)
    (hcols : 0 < columns) :
    (-1 ≤ HeatMapHybrid.valueAt columns rows col row p t ∧
      HeatMapHybrid.valueAt columns rows col row p t ≤ 1) ∧
    (-10 ≤ HeatMap.countAt columns rows col row p t ∧
      HeatMap.countAt columns rows col row p t ≤ 10) ∧
    ((p = PatternType.waves ∨ p = PatternType.ripples ∨ p = PatternType.checkerboard) →
      0 ≤ HeatMapHybrid.valueAt columns rows col row p t ∧
      0 ≤ HeatMap.countAt columns rows col row p t) := by
  cases p with
  | waves =>
      simp only [HeatMapHybrid.valueAt, HeatMap.countAt]
      have ha1 := Real.neg_one_le_sin ((col : ℝ) * 0.2 + t * 0.1)
      have ha2 := Real.sin_le_one ((col : ℝ) * 0.2 + t * 0.1)
      have hb1 := Real.neg_one_le_sin ((row : ℝ) * 0.2 + t * 0.1)
      have hb2 := Real.sin_le_one ((row : ℝ) * 0.2 + t * 0.1)
      have hv0 : 0 ≤ (Real.sin ((col : ℝ) * 0.2 + t * 0.1) +
          Real.sin ((row : ℝ) * 0.2 + t * 0.1) + 2) / 4 := by linarith
      have hv1 : (Real.sin ((col : ℝ) * 0.2 + t * 0.1) +
          Real.sin ((row : ℝ) * 0.2 + t * 0.1) + 2) / 4 ≤ 1 := by linarith
      obtain ⟨hc1, hc2⟩ := floor_ten_bounds (by linarith) hv1
      exact ⟨⟨by linarith, hv1⟩, ⟨hc1, hc2⟩, fun _ => ⟨hv0, floor_ten_nonneg hv0⟩⟩
  | ripples =>
      simp only [HeatMapHybrid.valueAt, HeatMap.countAt]
      have ha1 := Real.neg_one_le_sin
        (Real.sqrt (((col : ℝ) - (columns : ℝ) / 2) * ((col : ℝ) - (columns : ℝ) / 2) +
          ((row : ℝ) - (rows : ℝ) / 2) * ((row : ℝ) - (rows : ℝ) / 2)) * 0.5 - t * 0.2)
      have ha2 := Real.sin_le_one
        (Real.sqrt (((col : ℝ) - (columns : ℝ) / 2) * ((col : ℝ) - (columns : ℝ) / 2) +
          ((row : ℝ) - (rows : ℝ) / 2) * ((row : ℝ) - (rows : ℝ) / 2)) * 0.5 - t * 0.2)
      have hv0 : 0 ≤ (Real.sin
          (Real.sqrt (((col : ℝ) - (columns : ℝ) / 2) * ((col : ℝ) - (columns : ℝ) / 2) +
            ((row : ℝ) - (rows : ℝ) / 2) * ((row : ℝ) - (rows : ℝ) / 2)) * 0.5 - t * 0.2) + 1) / 2 := by
        linarith
      have hv1 : (Real.sin
          (Real.sqrt (((col : ℝ) - (columns : ℝ) / 2) * ((col : ℝ) - (columns : ℝ) / 2) +
            ((row : ℝ) - (rows : ℝ) / 2) * ((row : ℝ) - (rows : ℝ) / 2)) * 0.5 - t * 0.2) + 1) / 2 ≤ 1 := by
        linarith
      obtain ⟨hc1, hc2⟩ := floor_ten_bounds (by linarith) hv1
      exact ⟨⟨by linarith, hv1⟩, ⟨hc1, hc2⟩, fun _ => ⟨hv0, floor_ten_nonneg hv0⟩⟩
  | gradient =>
      simp only [HeatMapHybrid.valueAt, HeatMap.countAt]
      have hn : (0 : ℝ) < (columns : ℝ) := by exact_mod_cast hcols
      obtain ⟨hg1, hg2⟩ := jsMod_div_bounds ((col : ℝ) + (row : ℝ) + t) ((columns : ℝ)) hn
      obtain ⟨hc1, hc2⟩ := floor_ten_bounds hg1 hg2
      refine ⟨⟨hg1, hg2⟩, ⟨hc1, hc2⟩, ?_⟩
      intro h
      rcases h with h | h | h <;> simp at h
  | checkerboard =>
      simp only [HeatMapHybrid.valueAt, HeatMap.countAt]
      split_ifs <;> norm_num
  | spiral =>
      simp only [HeatMapHybrid.valueAt, HeatMap.countAt]
      have hn : (0 : ℝ) < 2 * Real.pi := by positivity
      obtain ⟨hg1, hg2⟩ := jsMod_div_bounds
        (atan2 ((row : ℝ) - (rows : ℝ) / 2) ((col : ℝ) - (columns : ℝ) / 2) +
          Real.sqrt (((col : ℝ) - (columns : ℝ) / 2) * ((col : ℝ) - (columns : ℝ) / 2) +
            ((row : ℝ) - (rows : ℝ) / 2) * ((row : ℝ) - (rows : ℝ) / 2)) * 0.1 + t * 0.05)
        (2 * Real.pi) hn
      obtain ⟨hc1, hc2⟩ := floor_ten_bounds hg1 hg2
      refine ⟨⟨hg1, hg2⟩, ⟨hc1, hc2⟩, ?_⟩
      intro h
      rcases h with h | h | h <;> simp at h

/-- Witness for the amended C1 at a concrete instance. -/
theorem C1_witness :
    (-1 ≤ HeatMapHybrid.valueAt 1 1 0 0 PatternType.waves 0 ∧
      HeatMapHybrid.valueAt 1 1 0 0 PatternType.waves 0 ≤ 1) ∧
    (-10 ≤ HeatMap.countAt 1 1 0 0 PatternType.waves 0 ∧
      HeatMap.countAt 1 1 0 0 PatternType.waves 0 ≤ 10) ∧
    ((PatternType.waves = PatternType.waves ∨ PatternType.waves = PatternType.ripples ∨
        PatternType.waves = PatternType.checkerboard) →
      0 ≤ HeatMapHybrid.valueAt 1 1 0 0 PatternType.waves 0 ∧
      0 ≤ HeatMap.countAt 1 1 0 0 PatternType.waves 0) :=
  C1_intensity_count_range 1 1 0 0 PatternType.waves 0 (by decide)

/-! ### Claim C2 — CPU versus GPU pattern formulas -/

/-- Claim C2, counterexample: at cell (0, 0), time 0, the CPU checkerboard
(heat-map.tsx, hybrid PatternGenerator, InstancedCubes) computes parity 0
and stores intensity 1, while the fragment-shader checkerboard returns
mod(0 + 0 + 0, 2) = 0.  The two code paths do not compute the same
intensity. -/
theorem C2_counterexample :
    HeatMapShader.getPatternValue 2 2 ((0 : ℕ) : ℝ) ((0 : ℕ) : ℝ) PatternType.checkerboard 0 ≠
      HeatMapHybrid.valueAt 2 2 0 0 PatternType.checkerboard 0 := by
  simp only [HeatMapShader.getPatternValue, HeatMapHybrid.valueAt]
  have hfl : ⌊(0 : ℝ) / 5⌋ = 0 := by norm_num
  have hcond : (((0 : ℕ) : ℤ) + ((0 : ℕ) : ℤ) + ⌊(0 : ℝ) / 5⌋).tmod 2 = 0 := by
    rw [hfl]
    decide
  rw [if_pos hcond]
  unfold glslMod
  norm_num

/-- Claim C2, amended: the shader and CPU formulas are not identical, but
they are related precisely.  At the cell lattice (scaled position equal to
the integer cell coordinates): the shader waves at time t equals the CPU
waves at time 10 t and the shader ripples equals the CPU ripples at time
5 t (the CPU scales time by 0.1 resp. 0.2, the shader does not); the shader
checkerboard is the complement 1 - CPU checkerboard at the same time; the
shader gradient at time t equals the CPU gradient at time 5 t whenever the
modulus argument is nonnegative (GLSL floor-mod and the JavaScript
remainder agree only there).  The spiral paths differ further (modulus
6.28 versus 2 pi) and admit no such exact relation. -/
theorem C2_shader_relation (columns rows col row : ℕ) (t : ℝ) :
    HeatMapShader.getPatternValue columns rows ((col : ℕ) : ℝ) ((row : ℕ) : ℝ)
        PatternType.waves t =
      HeatMapHybrid.valueAt columns rows col row PatternType.waves (10 * t) ∧
    HeatMapShader.getPatternValue columns rows ((col : ℕ) : ℝ) ((row : ℕ) : ℝ)
        PatternType.ripples t =
      HeatMapHybrid.valueAt columns rows col row PatternType.ripples (5 * t) ∧
    HeatMapShader.getPatternValue columns rows ((col : ℕ) : ℝ) ((row : ℕ) : ℝ)
        PatternType.checkerboard t =
      1 - HeatMapHybrid.valueAt columns rows col row PatternType.checkerboard t ∧
    (0 < columns → 0 ≤ ((col : ℕ) : ℝ) + ((row : ℕ) : ℝ) + t * 5 →
      HeatMapShader.getPatternValue columns rows ((col : ℕ) : ℝ) ((row : ℕ) : ℝ)
          PatternType.gradient t =
        HeatMapHybrid.valueAt columns rows col row PatternType.gradient (5 * t)) := by
  refine ⟨?_, ?_, ?_, ?_⟩
  · simp only [HeatMapShader.getPatternValue, HeatMapHybrid.valueAt]
    rw [show (10 : ℝ) * t * 0.1 = t from by ring]
  · simp only [HeatMapShader.getPatternValue, HeatMapHybrid.valueAt]
    rw [show ((columns : ℕ) : ℝ) * 0.5 = ((columns : ℕ) : ℝ) / 2 from by ring,
      show ((rows : ℕ) : ℝ) * 0.5 = ((rows : ℕ) : ℝ) / 2 from by ring,
      show (5 : ℝ) * t * 0.2 = t from by ring]
  · simp only [HeatMapShader.getPatternValue, HeatMapHybrid.valueAt]
    rw [show t * 0.2 = t / 5 from by ring, Int.floor_natCast, Int.floor_natCast]
    have hsum : ((col : ℤ) : ℝ) + ((row : ℤ) : ℝ) + ((⌊t / 5⌋ : ℤ) : ℝ) =
        (((col : ℤ) + (row : ℤ) + ⌊t / 5⌋ : ℤ) : ℝ) := by
      push_cast
      ring
    rw [hsum, glslMod_intCast_two]
    rcases Int.emod_two_eq ((col : ℤ) + (row : ℤ) + ⌊t / 5⌋) with h | h
    · rw [h, if_pos ((tmod_two_eq_zero_iff _).mpr h)]
      norm_num
    · rw [h, if_neg (fun hc => by rw [(tmod_two_eq_zero_iff _).mp hc] at h; omega)]
      norm_num
  · intro hc ha
    simp only [HeatMapShader.getPatternValue, HeatMapHybrid.valueAt]
    rw [show (5 : ℝ) * t = t * 5 from by ring]
    rw [jsMod_eq_glslMod _ _ ha (by exact_mod_cast hc)]

/-- Witness for the amended C2 at cell (0, 0), time 0 (the gradient part
discharges its positivity and nonnegativity hypotheses there). -/
theorem C2_witness :
    HeatMapShader.getPatternValue 1 1 ((0 : ℕ) : ℝ) ((0 : ℕ) : ℝ) PatternType.waves 0 =
      HeatMapHybrid.valueAt 1 1 0 0 PatternType.waves (10 * 0) ∧
    HeatMapShader.getPatternValue 1 1 ((0 : ℕ) : ℝ) ((0 : ℕ) : ℝ) PatternType.gradient 0 =
      HeatMapHybrid.valueAt 1 1 0 0 PatternType.gradient (5 * 0) :=
  ⟨(C2_shader_relation 1 1 0 0 0).1,
    (C2_shader_relation 1 1 0 0 0).2.2.2 (by decide) (by norm_num)⟩

/-! ### Claim C8 — frame coverage -/

/-- Counting an element of a duplicate-free list in which it occurs yields
exactly one occurrence (stated for any lawful boolean equality). -/
theorem count_eq_one_of_nodup_mem {α : Type} [BEq α] [LawfulBEq α] {a : α} {l : List α}
    (d : l.Nodup) (h : a ∈ l) : l.count a = 1 := by
  induction l with
  | nil => cases h
  | cons x xs ih =>
      obtain ⟨hx, hxs⟩ := List.nodup_cons.mp d
      rw [List.count_cons]
      rcases List.mem_cons.mp h with rfl | hmem
      · rw [if_pos (beq_self_eq_true a), List.count_eq_zero.mpr hx]
      · rw [ih hxs hmem, if_neg ?_]
        intro hbeq
        exact hx (eq_of_beq hbeq ▸ hmem)

/-- Claim C8: the heat-map.tsx frame generator emits exactly columns * rows
cells, and each (col, row) pair of the grid appears exactly once in its
(column-major) output; likewise each pair appears exactly once in the
row-major index-decode order used by the hybrid PatternGenerator and by
InstancedCubes. -/
theorem C8_frame_coverage (columns rows : ℕ) (p : PatternType) (t : ℝ) :
    (HeatMap.generatePattern columns rows p t).length = columns * rows ∧
    (∀ c r, c < columns → r < rows →
      ((HeatMap.generatePattern columns rows p t).map fun cell =>
        (cell.col, cell.row)).count (c, r) = 1) ∧
    (∀ c r, c < columns → r < rows →
      (HeatMapHybrid.cellIndexCoords columns rows).count (c, r) = 1) := by
  have hmap : (HeatMap.generatePattern columns rows p t).map
      (fun cell => (cell.col, cell.row)) =
      (List.range columns).flatMap fun c => (List.range rows).map fun r => ((c, r) : ℕ × ℕ) := by
    simp [HeatMap.generatePattern, List.map_flatMap, List.map_map, Function.comp_def]
  refine ⟨?_, ?_, ?_⟩
  · simp [HeatMap.generatePattern, List.length_flatMap, Function.comp_def, mul_comm]
  · intro c r hc hr
    rw [hmap]
    apply count_eq_one_of_nodup_mem
    · apply List.nodup_flatMap.mpr
      refine ⟨fun a _ => ?_, ?_⟩
      · exact List.Nodup.map (fun x y h => congrArg Prod.snd h) (List.nodup_range rows)
      · apply List.Pairwise.imp ?_ (List.nodup_range columns)
        intro a b hne
        intro x hx1 hx2
        obtain ⟨r1, _, rfl⟩ := List.mem_map.mp hx1
        obtain ⟨r2, _, h2⟩ := List.mem_map.mp hx2
        exact hne (congrArg Prod.fst h2).symm
    · exact List.mem_flatMap.mpr
        ⟨c, List.mem_range.mpr hc, List.mem_map.mpr ⟨r, List.mem_range.mpr hr, rfl⟩⟩
  · intro c r hc hr
    have hcolpos : 0 < columns := by omega
    unfold HeatMapHybrid.cellIndexCoords
    apply count_eq_one_of_nodup_mem
    · apply List.Nodup.map ?_ (List.nodup_range (columns * rows))
      intro i j hij
      have h1 : i % columns = j % columns := congrArg Prod.fst hij
      have h2 : i / columns = j / columns := congrArg Prod.snd hij
      calc i = columns * (i / columns) + i % columns := (Nat.div_add_mod i columns).symm
        _ = columns * (j / columns) + j % columns := by rw [h1, h2]
        _ = j := Nat.div_add_mod j columns
    · apply List.mem_map.mpr
      refine ⟨c + r * columns, List.mem_range.mpr ?_, ?_⟩
      · have h1 : c + r * columns < columns + r * columns := by omega
        have h2 : columns + r * columns = (r + 1) * columns := by ring
        have h3 : (r + 1) * columns ≤ rows * columns :=
          Nat.mul_le_mul_right _ (by omega)
        exact lt_of_lt_of_le (h2 ▸ h1) (le_of_le_of_eq h3 (Nat.mul_comm rows columns))
      · have hm : (c + r * columns) % columns = c := by
          rw [Nat.add_mul_mod_self_right, Nat.mod_eq_of_lt hc]
        have hd : (c + r * columns) / columns = r := by
          rw [Nat.add_mul_div_right _ _ hcolpos, Nat.div_eq_of_lt hc, Nat.zero_add]
        simp [hm, hd]

/-- Witness for C8 on the 5 x 3 grid of the spec example: 15 cells, and the
pair (4, 2) occurs exactly once in both traversal orders. -/
theorem C8_witness :
    (HeatMap.generatePattern 5 3 PatternType.waves 0).length = 15 ∧
    ((HeatMap.generatePattern 5 3 PatternType.waves 0).map fun cell =>
      (cell.col, cell.row)).count (4, 2) = 1 ∧
    (HeatMapHybrid.cellIndexCoords 5 3).count (4, 2) = 1 :=
  ⟨(C8_frame_coverage 5 3 PatternType.waves 0).1,
    (C8_frame_coverage 5 3 PatternType.waves 0).2.1 4 2 (by decide) (by decide),
    (C8_frame_coverage 5 3 PatternType.waves 0).2.2 4 2 (by decide) (by decide)⟩
